import Mathlib

/-!
# Verification of the generation-queue core of the image-generation app

Shallow embedding of the client-side generation-request queue, the
single-call retry/polling protocol, the durable active-job store, the
recovery agent and the reference-image compression loop, translated from
`src/services/imageGeneration.ts`, `src/App.tsx`, the recovery-enabled
`App` variant and `utils/compressImage.ts`.

Conventions of the embedding:
* network responses (`fetch` + `response.json()`) are oracles
  `Nat → HttpResponse`; the n-th call consumes index n.  `fetch` is modelled
  as total (it returns a response rather than throwing).
* JavaScript string truthiness (`data.error`, `data.url`, …, where both
  `undefined` and `""` are falsy) is `jsTruthy : Option String → Bool`.
* `localStorage` is an `Option String` (the value stored under the fixed
  key, `none` = missing); `JSON.parse` / `JSON.stringify` for string lists
  are oracle parameters `parse : String → Option (List String)`
  (`none` = the parse throws) and `stringify : List String → String`.
* wall-clock time in the polling loops is idealised: every iteration of a
  polling loop advances the clock by exactly `POLL_INTERVAL_MS`
  (the `sleep`), all other operations are instantaneous.
* JavaScript numbers in the compression quality loop are IEEE 754
  binary64: doubles are carried as their exact rational values, and number
  literals and subtraction are correctly rounded to the nearest double,
  ties to even.
-/

/-! ## Constants (imageGeneration.ts lines 40-43, 218) -/

def MAX_RETRIES : Nat := 3
def POLL_INTERVAL_MS : Nat := 1500
def POLL_TIMEOUT_MS : Nat := 5 * 60 * 1000
def DELAY_MS : Nat := 2000

/-! ## JavaScript string truthiness -/

/-- Truthiness of an optional JS string field: `undefined` and `""` are
falsy, every other string is truthy. -/
def jsTruthy : Option String → Bool
  | none => false
  | some s => s ≠ ""

/-! ## The durable active-job set (imageGeneration.ts lines 45-70)

`addActiveJob` reads the stored JSON list, pushes the id if absent and
writes the list back; `removeActiveJob` filters the id out;
`getActiveJobIds` reads the list.  All three wrap the body in
`try { … } catch { /* ignore */ }` (resp. `catch { return [] }`). -/

/-- List transformation performed by `addActiveJob`
(`if (!ids.includes(jobId)) ids.push(jobId)`). -/
def addJobList (ids : List String) (jobId : String) : List String :=
  if jobId ∈ ids then ids else ids ++ [jobId]

/-- List transformation performed by `removeActiveJob`
(`ids.filter((id) => id !== jobId)`). -/
def removeJobList (ids : List String) (jobId : String) : List String :=
  ids.filter (fun id => id ≠ jobId)

/-- `addActiveJob`: parse the stored value (missing ↦ `"[]"`), push the id
if absent, stringify and store.  A parse failure or a write failure
(`writeOk = false`, e.g. quota exceeded) is swallowed and leaves the store
unchanged. -/
def addActiveJob (parse : String → Option (List String))
    (stringify : List String → String) (store : Option String)
    (jobId : String) (writeOk : Bool) : Option String :=
  match parse (store.getD "[]") with
  | none => store
  | some ids => if writeOk then some (stringify (addJobList ids jobId)) else store

/-- `removeActiveJob`: parse, filter the id out, stringify and store;
failures are swallowed as in `addActiveJob`. -/
def removeActiveJob (parse : String → Option (List String))
    (stringify : List String → String) (store : Option String)
    (jobId : String) (writeOk : Bool) : Option String :=
  match parse (store.getD "[]") with
  | none => store
  | some ids => if writeOk then some (stringify (removeJobList ids jobId)) else store

/-- `getActiveJobIds`: parse the stored value (missing ↦ `"[]"`), returning
`[]` when the parse throws. -/
def getActiveJobIds (parse : String → Option (List String))
    (store : Option String) : List String :=
  match parse (store.getD "[]") with
  | none => []
  | some ids => ids

/-- A finite-table JSON codec instance (used to exercise the store
operations on concrete inputs). -/
def tableParse : String → Option (List String) :=
  fun str =>
    if str = "a" then some ["a"]
    else if str = "b" then some ["b"]
    else if str = "b,c" then some ["b", "c"]
    else if str = "x,y,x" then some ["x", "y", "x"]
    else if str = "y" then some ["y"]
    else none

/-- Serializer half of the finite-table codec. -/
def tableStringify : List String → String :=
  fun l =>
    if l = ["a"] then "a"
    else if l = ["b"] then "b"
    else if l = ["b", "c"] then "b,c"
    else if l = ["x", "y", "x"] then "x,y,x"
    else if l = ["y"] then "y"
    else ""

/-! ## Data model (imageGeneration.ts lines 15-38) -/

/-- `ImageGenerationParams` (aspect ratio and size enums kept as strings;
the claims under verification do not depend on the enum carriers). -/
structure ImageGenerationParams where
  prompt : String
  aspectRatio : String
  imageSize : String
  model : Option String := none
  userId : Option String := none
  referenceImages : List String := []
  referenceImageUrls : List String := []
deriving DecidableEq

/-- `GeneratedImage` (imageGeneration.ts lines 29-38). -/
structure GeneratedImage where
  id : String
  url : String
  storagePath : Option String := none
  base64Data : String
  timestamp : Nat
  prompt : String
  aspectRatio : String
  imageSize : String
deriving DecidableEq

/-- A concrete image record, used to exercise the definitions on concrete
inputs. -/
def sampleImage : GeneratedImage :=
  { id := "img-1", url := "https://example.com/i.png", storagePath := none,
    base64Data := "abc", timestamp := 0, prompt := "a red balloon",
    aspectRatio := "1:1", imageSize := "1K" }

/-! ## Batch generation (imageGeneration.ts lines 223-243)

`generateBatchImages` issues `count` sequential calls to `generateImage`,
sleeping `DELAY_MS` before every call but the first.  The outcome of the
i-th `generateImage` call is the oracle value `units i`.  Alongside the
result we collect the list of inter-request delays actually awaited. -/

/-- The `for` loop of `generateBatchImages`: `results` and `delays` are the
accumulators, `i` the loop counter. -/
def batchLoop (units : Nat → Except String GeneratedImage) (count : Nat)
    (i : Nat) (results : List GeneratedImage) (delays : List Nat) :
    Except String (List GeneratedImage) × List Nat :=
  if _h : i < count then
    let delays' := if 0 < i then delays ++ [DELAY_MS] else delays
    match units i with
    | .ok img => batchLoop units count (i + 1) (results ++ [img]) delays'
    | .error e =>
        if results.isEmpty then (.error e, delays') else (.ok results, delays')
  else (.ok results, delays)
termination_by count - i

/-- `generateBatchImages params count`, with the per-unit outcomes supplied
by the `units` oracle. -/
def generateBatchImages (units : Nat → Except String GeneratedImage)
    (count : Nat) : Except String (List GeneratedImage) × List Nat :=
  batchLoop units count 0 [] []

/-! ## App state and submission (src/App.tsx) -/

/-- Placeholder status in the grid. -/
inductive PlaceholderStatus
  | generating
  | queued
deriving DecidableEq

/-- Creator info attached to a displayed image. -/
structure CreatorInfo where
  username : String
  avatar_url : Option String := none
deriving DecidableEq

/-- `GridItem` (App.tsx lines 17-19): either a displayed image or a
placeholder. -/
inductive GridItem
  | image (id url aspectRatio prompt imageSize : String)
      (creator : Option CreatorInfo)
  | placeholder (id : String) (status : PlaceholderStatus)
      (aspectRatio imageSize : String)
deriving DecidableEq

/-- `QueuedBatch` (App.tsx lines 21-25). -/
structure QueuedBatch where
  id : String
  params : ImageGenerationParams
  batchSize : Nat
deriving DecidableEq

/-- The pieces of React state of `App` that the queue logic touches. -/
structure AppState where
  gridItems : List GridItem
  queue : List QueuedBatch
  isProcessing : Bool
  error : Option String
deriving DecidableEq

/-- Placeholder ids for a batch
(`Array.from({length}, (_, i) => ph-batchId-i)`). -/
def placeholderIdsFor (batchId : String) (n : Nat) : List String :=
  (List.range n).map (fun i => "ph-" ++ batchId ++ "-" ++ toString i)

/-- The placeholders created by `handleGenerate` (App.tsx lines 178-185). -/
def submissionPlaceholders (batchId : String)
    (params : ImageGenerationParams) (isFirstInQueue : Bool) (n : Nat) :
    List GridItem :=
  (placeholderIdsFor batchId n).map (fun id =>
    .placeholder id
      (if isFirstInQueue then .generating else .queued)
      params.aspectRatio params.imageSize)

/-- JS `String.prototype.trim()`: strip leading and trailing
whitespace. -/
def jsTrim (s : String) : String :=
  String.mk (((s.data.dropWhile Char.isWhitespace).reverse.dropWhile
    Char.isWhitespace).reverse)

/-- `handleGenerate` (App.tsx lines 167-189): reject an empty (trimmed)
prompt; otherwise clear the error, prepend one placeholder per requested
unit (carrying the request aspect ratio and size) and enqueue the batch.
The fresh batch id produced by `nextBatchId` is the `batchId` argument. -/
def handleGenerate (st : AppState) (params : ImageGenerationParams)
    (batchSize : Nat) (batchId : String) : AppState :=
  if jsTrim params.prompt = "" then
    { st with error := some "Please enter a prompt" }
  else
    { st with
      error := none,
      gridItems :=
        submissionPlaceholders batchId params (st.queue.length == 0) batchSize
          ++ st.gridItems,
      queue := st.queue ++ [⟨batchId, params, batchSize⟩] }

/-! ## Saving generated images (src/App.tsx lines 111-158) -/

/-- Row returned by the BaaS for a stored image. -/
structure StoredImage where
  id : String
  url : String
  aspect_ratio : Option String := none
  prompt : Option String := none
  image_size : Option String := none
deriving DecidableEq

/-- JS `a || b` on an optional string field. -/
def jsOr (a : Option String) (b : String) : String :=
  if jsTruthy a then a.getD "" else b

/-- The save loop of `processBatch` (App.tsx lines 115-144): persist each
generated image; on persistence failure fall back to a grid item built from
the locally known image fields.  `save` is the
`saveImageToSupabase` oracle. -/
def saveLoop (save : GeneratedImage → Except String StoredImage)
    (creator : Option CreatorInfo) (imgs : List GeneratedImage) :
    List GridItem :=
  imgs.map (fun img =>
    match save img with
    | .ok stored =>
        .image stored.id stored.url (jsOr stored.aspect_ratio img.aspectRatio)
          (jsOr stored.prompt img.prompt) (jsOr stored.image_size img.imageSize)
          creator
    | .error _ =>
        .image img.id img.url img.aspectRatio img.prompt img.imageSize creator)

/-- Grid filter of `processBatch`
(`p.type !== 'placeholder' || !placeholderIds.includes(p.id)`). -/
def keepItem (phIds : List String) : GridItem → Bool
  | .image _ _ _ _ _ _ => true
  | .placeholder pid _ _ _ => !(phIds.contains pid)

/-- Resolution of `processBatch` after `generateBatchImages` settles
(App.tsx lines 111-158): on success prepend the saved items and drop the
batch placeholders, leaving `error` untouched; on failure surface the error
and drop the placeholders.  Either way the processing flag clears. -/
def processBatchResolve (st : AppState) (phIds : List String)
    (outcome : Except String (List GeneratedImage))
    (save : GeneratedImage → Except String StoredImage)
    (creator : Option CreatorInfo) : AppState :=
  match outcome with
  | .ok imgs =>
      { st with
        gridItems :=
          saveLoop save creator imgs ++ st.gridItems.filter (keepItem phIds),
        isProcessing := false }
  | .error e =>
      { st with
        error := some e,
        gridItems := st.gridItems.filter (keepItem phIds),
        isProcessing := false }

/-! ## The Sequencer as a transition system (src/App.tsx lines 95-165)

States carry the queued batch ids, the `isProcessing` flag, and the
(ghost) multiset of batches currently being executed.  `submit` is
`handleGenerate` enqueuing; `start` is the queue-drain effect calling
`processBatch` on the head when the queue is non-empty and nothing is
processing (`processBatch` itself re-checks the flag before dequeuing);
`finish` is `processBatch` completing and clearing the flag in `finally`. -/

structure SequencerState where
  queue : List String
  isProcessing : Bool
  inFlight : List String
deriving DecidableEq

/-- One cooperative step of the App queue machinery. -/
inductive SequencerStep : SequencerState → SequencerState → Prop
  | submit (s : SequencerState) (b : String) :
      SequencerStep s { s with queue := s.queue ++ [b] }
  | start (s : SequencerState) (b : String) (rest : List String)
      (hq : s.queue = b :: rest) (hp : s.isProcessing = false) :
      SequencerStep s
        { queue := s.queue.filter (fun x => x ≠ b),
          isProcessing := true,
          inFlight := s.inFlight ++ [b] }
  | finish (s : SequencerState) (b : String) (hb : b ∈ s.inFlight) :
      SequencerStep s
        { s with isProcessing := false, inFlight := s.inFlight.erase b }

/-- Initial App state: empty queue, flag down, nothing in flight. -/
def sequencerInit : SequencerState :=
  { queue := [], isProcessing := false, inFlight := [] }

/-! ## HTTP layer (api responses as seen through `response.json()`) -/

/-- The JSON fields of a proxy/status response that `generateImage` reads
(absent fields are `none`). -/
structure JsonData where
  id : Option String := none
  jobId : Option String := none
  url : Option String := none
  storagePath : Option String := none
  base64Data : Option String := none
  error : Option String := none
  prompt : Option String := none
  aspectRatio : Option String := none
  imageSize : Option String := none
deriving DecidableEq

/-- An HTTP response: status code plus parsed JSON body (a body that fails
to parse is `{}`, i.e. all fields `none`, matching
`response.json().catch(() => ({}))`). -/
structure HttpResponse where
  status : Nat
  data : JsonData := {}
deriving DecidableEq

/-- JS `Response.ok`: status in [200, 299]. -/
def respOk (r : HttpResponse) : Bool :=
  decide (200 ≤ r.status) && decide (r.status ≤ 299)

/-- The async-acceptance test of `generateImage`
(`response.status === 202 && data.jobId`). -/
def isAsync202 (r : HttpResponse) : Bool :=
  (r.status == 202) && jsTruthy r.data.jobId

/-- The inline-image test
(`response.ok && (data.url || data.base64Data)`). -/
def isSyncSuccess (r : HttpResponse) : Bool :=
  respOk r && (jsTruthy r.data.url || jsTruthy r.data.base64Data)

/-- The terminal-error test of the polling loops
(`res.status === 500 && data.error`). -/
def is500Error (r : HttpResponse) : Bool :=
  (r.status == 500) && jsTruthy r.data.error

/-- A response that triggers neither the async path nor the sync-success
path of `generateImage`, i.e. falls through to the failure handling. -/
def plainFailure (r : HttpResponse) : Bool :=
  !(isAsync202 r) && !(isSyncSuccess r)

/-- The transient-failure test (`response.status === 429 || === 503`). -/
def isRetryable (r : HttpResponse) : Bool :=
  (r.status == 429) || (r.status == 503)

/-- The error message built on a failed attempt
(`new Error(data.error || `Generation failed: ${response.status}`)`). -/
def failMsg (r : HttpResponse) : String :=
  if jsTruthy r.data.error then r.data.error.getD ""
  else "Generation failed: " ++ toString r.status

/-- A status-endpoint response on which either polling loop stops. -/
def isTerminalPoll (r : HttpResponse) : Bool :=
  is500Error r || isSyncSuccess r

/-- `parseResult` (imageGeneration.ts lines 76-108).  `freshId` stands for
the generated `img-${Date.now()}-${random}` identifier and `now` for
`Date.now()`. -/
def parseResult (data : JsonData) (params : ImageGenerationParams)
    (freshId : String) (now : Nat) : Except String GeneratedImage :=
  if jsTruthy data.url && jsTruthy data.storagePath then
    .ok { id := jsOr data.id freshId, url := data.url.getD "",
          storagePath := data.storagePath, base64Data := "",
          timestamp := now, prompt := jsOr data.prompt params.prompt,
          aspectRatio := jsOr data.aspectRatio params.aspectRatio,
          imageSize := jsOr data.imageSize params.imageSize }
  else if jsTruthy data.base64Data then
    .ok { id := freshId,
          url := "data:image/png;base64," ++ data.base64Data.getD "",
          storagePath := none, base64Data := data.base64Data.getD "",
          timestamp := now, prompt := jsOr data.prompt params.prompt,
          aspectRatio := jsOr data.aspectRatio params.aspectRatio,
          imageSize := jsOr data.imageSize params.imageSize }
  else .error "No image data returned"

/-- The outcome the polling loop produces on the first terminal status
response (upstream error first, then success payload). -/
def terminalOutcome (r : HttpResponse) (params : ImageGenerationParams)
    (freshId : String) (now : Nat) : Except String GeneratedImage :=
  if is500Error r then .error (r.data.error.getD "")
  else parseResult r.data params freshId now

/-- The `for (;;)` polling loop inside `generateImage` (imageGeneration.ts
lines 148-161), at iteration `n`.  Each iteration sleeps
`POLL_INTERVAL_MS`, so after the sleep of iteration `n` the elapsed time is
`POLL_INTERVAL_MS * (n + 1)`; the loop then times out, or fetches the n-th
status response and stops on a terminal payload. -/
def pollLoop (poll : Nat → HttpResponse) (params : ImageGenerationParams)
    (freshId : String) (now : Nat) (n : Nat) : Except String GeneratedImage :=
  if _h : POLL_INTERVAL_MS * (n + 1) > POLL_TIMEOUT_MS then
    .error "Generation timed out"
  else
    if is500Error (poll n) then .error ((poll n).data.error.getD "")
    else if isSyncSuccess (poll n) then parseResult (poll n).data params freshId now
    else pollLoop poll params freshId now (n + 1)
termination_by 201 - n
decreasing_by
  simp only [POLL_INTERVAL_MS, POLL_TIMEOUT_MS, gt_iff_lt, not_lt] at _h
  omega

/-- Number of status fetches the polling loop can make before the absolute
timeout: `POLL_TIMEOUT_MS / POLL_INTERVAL_MS` (= 200). -/
def pollWindow : Nat := POLL_TIMEOUT_MS / POLL_INTERVAL_MS

/-- The retry loop of `generateImage` (imageGeneration.ts lines 132-178).
`post attempt` is the response to the attempt-th POST, `poll` the status
responses of the (single possible) async phase; the result carries the
final outcome, the durable active-job list, and the list of backoff delays
awaited between attempts. -/
def genLoop (post poll : Nat → HttpResponse) (params : ImageGenerationParams)
    (freshId : String) (now : Nat) (store : List String) (attempt : Nat)
    (lastError : Option String) (delays : List Nat) :
    Except String GeneratedImage × List String × List Nat :=
  if _h : attempt < MAX_RETRIES then
    if isAsync202 (post attempt) then
      (pollLoop poll params freshId now 0,
       removeJobList
         (addJobList store ((post attempt).data.jobId.getD ""))
         ((post attempt).data.jobId.getD ""),
       delays)
    else if isSyncSuccess (post attempt) then
      (parseResult (post attempt).data params freshId now, store, delays)
    else if !(isRetryable (post attempt)) || attempt == MAX_RETRIES - 1 then
      (.error (failMsg (post attempt)), store, delays)
    else
      genLoop post poll params freshId now store (attempt + 1)
        (some (failMsg (post attempt))) (delays ++ [1000 * 2 ^ attempt])
  else (.error (lastError.getD "Generation failed"), store, delays)
termination_by MAX_RETRIES - attempt
decreasing_by omega

/-- `generateImage` (imageGeneration.ts lines 115-181): run the retry loop
from attempt 0 with no recorded error. -/
def generateImage (post poll : Nat → HttpResponse)
    (params : ImageGenerationParams) (freshId : String) (now : Nat)
    (store : List String) :
    Except String GeneratedImage × List String × List Nat :=
  genLoop post poll params freshId now store 0 none []

/-! ## Recovery polling (imageGeneration.ts lines 188-216, App recovery
effect of the recovery-enabled `App` variant lines 829-848)

`pollJobUntilComplete(jobId, onComplete)` polls the status endpoint while
`Date.now() - start < timeoutMs`; on a terminal response it removes the job
from the durable set, invokes `onComplete()` WITH NO ARGUMENTS and returns
`true`; after the timeout it returns `false` without removing the job.  The
App recovery effect passes a handler `(completedJobId) => …`; since the
service invokes the callback with zero arguments, `completedJobId` is the
JS value `undefined` at runtime (modelled as `none`). -/

/-- The polling loop of `pollJobUntilComplete` at iteration `n` (elapsed
time before the iteration-n sleep is `POLL_INTERVAL_MS * n`).  Returns
whether a terminal response was seen, together with the updated durable
job list. -/
def pollJobUntilComplete (poll : Nat → HttpResponse) (jobId : String)
    (store : List String) (timeoutMs : Nat) (n : Nat) :
    Bool × List String :=
  if _h : POLL_INTERVAL_MS * n < timeoutMs then
    if is500Error (poll n) then (true, removeJobList store jobId)
    else if isSyncSuccess (poll n) then (true, removeJobList store jobId)
    else pollJobUntilComplete poll jobId store timeoutMs (n + 1)
  else (false, store)
termination_by timeoutMs / POLL_INTERVAL_MS + 1 - n
decreasing_by
  simp only [POLL_INTERVAL_MS] at _h ⊢
  omega

/-- Placeholders synthesized by the recovery effect: one per stored id,
tagged `generating` (recovery-enabled `App` variant lines 833-839). -/
def recoveryPlaceholders (ids : List String) : List GridItem :=
  ids.map (fun jobId =>
    .placeholder ("recovery-" ++ jobId) .generating "3:2" "1K")

/-- JS string interpolation of a possibly-`undefined` argument. -/
def jsArgString : Option String → String
  | none => "undefined"
  | some s => s

/-- The recovery completion handler `onJobComplete` (recovery-enabled `App`
variant lines 841-844): drop the placeholder whose id is
`recovery-${completedJobId}` and bump the gallery refresh key. -/
def onJobComplete (grid : List GridItem) (refreshKey : Nat)
    (completedJobId : Option String) : List GridItem × Nat :=
  (grid.filter (fun p =>
    match p with
    | .placeholder pid _ _ _ => !(pid == "recovery-" ++ jsArgString completedJobId)
    | .image _ _ _ _ _ _ => true),
   refreshKey + 1)

/-- The recovery effect prepends one `generating` placeholder per stored
job id. -/
def recoverEffect (ids : List String) (grid : List GridItem) :
    List GridItem :=
  recoveryPlaceholders ids ++ grid

/-- One recovered job run to completion: poll; when a terminal response
arrives the service invokes the completion callback with zero arguments, so
the App handler observes `completedJobId = undefined` (`none`).  Returns
(completed?, durable list, grid, refresh key). -/
def runRecoveredJob (poll : Nat → HttpResponse) (jobId : String)
    (store : List String) (grid : List GridItem) (refreshKey : Nat) :
    Bool × List String × List GridItem × Nat :=
  let res := pollJobUntilComplete poll jobId store (5 * 60 * 1000) 0
  if res.1 then
    let gr := onJobComplete grid refreshKey none
    (true, res.2, gr.1, gr.2)
  else (false, res.2, grid, refreshKey)

/-! ## Reference-image compression (utils/compressImage.ts)

The quality-shrinking loop: re-encode at the current quality while the
encoding exceeds the character budget and the quality is above the floor,
lowering the quality by a fixed step each iteration.  `enc q` is the length
of `canvas.toDataURL('image/jpeg', q)` for the already-downscaled canvas.
JavaScript numbers are IEEE 754 binary64 values: the model represents each
double by its exact rational value; number literals and subtraction round
their exact value to the nearest double, ties to even (`roundB64`).  The
loop carries a fuel counter only to be total on arbitrary rational inputs;
the theorems exhibit runs that exit through the loop guard, with fuel to
spare. -/

/-- Round a rational to the nearest integer, ties to even (the IEEE 754
default rounding direction). -/
def rne (y : ℚ) : ℤ :=
  if y - ⌊y⌋ < 1/2 then ⌊y⌋
  else if 1/2 < y - ⌊y⌋ then ⌊y⌋ + 1
  else if ⌊y⌋ % 2 = 0 then ⌊y⌋ else ⌊y⌋ + 1

/-- `2 ^ n` for an integer `n`, as a rational. -/
def pow2 (n : ℤ) : ℚ :=
  if 0 ≤ n then (2 : ℚ) ^ n.toNat else 1 / (2 : ℚ) ^ (-n).toNat

/-- Round a rational to the nearest IEEE 754 binary64 value, ties to even:
scale the magnitude into `[2^52, 2^53)` using its binade `Int.log 2 |x|`,
round the scaled significand to an integer, and scale back.  Faithful on
the normal range, which covers every value the quality loop manipulates
(overflow and subnormals cannot occur there). -/
def roundB64 (x : ℚ) : ℚ :=
  if x = 0 then 0
  else if 0 < x then
    (rne (x * pow2 (52 - Int.log 2 x)) : ℚ) * pow2 (Int.log 2 x - 52)
  else
    -((rne (-x * pow2 (52 - Int.log 2 (-x))) : ℚ) *
      pow2 (Int.log 2 (-x) - 52))

/-- IEEE binary64 subtraction: the exact difference, correctly rounded. -/
def fsub64 (a b : ℚ) : ℚ := roundB64 (a - b)

/-- The binary64 value of a JS number literal. -/
def jsNum (x : ℚ) : ℚ := roundB64 x

/-- The shrinking loop on binary64 quality values
(`while (dataUrl.length > MAX_SIZE_CHARS && quality > FLOOR)
\x7b quality -= STEP; dataUrl = tryEncode(); \x7d`), returning the trace of
qualities at which an encode happened (in order) and the final quality,
whose encoding is the emitted data URL. -/
def shrinkLoopF (enc : ℚ → ℕ) (maxChars : Nat) (floor step : ℚ) :
    Nat → ℚ → List ℚ × ℚ
  | 0, q => ([q], q)
  | fuel + 1, q =>
      if enc q > maxChars ∧ q > floor then
        (q :: (shrinkLoopF enc maxChars floor step fuel (fsub64 q step)).1,
         (shrinkLoopF enc maxChars floor step fuel (fsub64 q step)).2)
      else ([q], q)

/-- `compressImageForReference` quality loop, first variant
(compressImage.ts with `MAX_DIMENSION = 1024`): budget 450000 characters,
initial quality `0.7`, step `0.1`, floor `0.2`, all binary64 literals. -/
def compressImageForReference (enc : ℚ → ℕ) (fuel : Nat) :
    List ℚ × ℚ :=
  shrinkLoopF enc 450000 (jsNum (1/5)) (jsNum (1/10)) fuel (jsNum (7/10))

/-- `compressImageForReference` quality loop, aggressive variant
(compressImage.ts with `MAX_DIMENSION = 768`): budget 280000 characters,
initial quality `0.55`, step `0.08`, floor `0.15`, all binary64
literals. -/
def compressImageForReferenceAggressive (enc : ℚ → ℕ) (fuel : Nat) :
    List ℚ × ℚ :=
  shrinkLoopF enc 280000 (jsNum (3/20)) (jsNum (2/25)) fuel (jsNum (11/20))

/-- Concrete request parameters, for exercising the definitions. -/
def sampleParams : ImageGenerationParams :=
  { prompt := "a red balloon", aspectRatio := "1:1", imageSize := "1K" }

/-- Concrete POST responses: two rate-limited attempts, then an unavailable
response carrying an explicit error payload. -/
def postRetrySample : Nat → HttpResponse :=
  fun i => if i < 2 then { status := 429 }
    else { status := 503, data := { error := some "slow down" } }

/-- Concrete POST response: async acceptance with a job id. -/
def post202Sample : Nat → HttpResponse :=
  fun _ => { status := 202, data := { jobId := some "job1" } }

/-- Concrete status response: terminal success payload. -/
def pollSuccessSample : Nat → HttpResponse :=
  fun _ =>
    { status := 200
      data := { url := some "https://cdn.example/img.png"
                storagePath := some "imgs/img.png" } }

/-- Concrete status response: still processing, never terminal. -/
def pollPendingSample : Nat → HttpResponse :=
  fun _ => { status := 102 }

/-! ### Basic lemmas about the list-level operations -/

theorem addJobList_mem_self (ids : List String) (j : String) :
    j ∈ addJobList ids j := by
  unfold addJobList
  by_cases h : j ∈ ids
  · simp [h]
  · simp [h]

theorem addJobList_of_mem {ids : List String} {j : String} (h : j ∈ ids) :
    addJobList ids j = ids := by
  simp [addJobList, h]

theorem addJobList_of_not_mem {ids : List String} {j : String} (h : j ∉ ids) :
    addJobList ids j = ids ++ [j] := by
  simp [addJobList, h]

theorem removeJobList_not_mem (ids : List String) (j : String) :
    j ∉ removeJobList ids j := by
  simp [removeJobList]

theorem removeJobList_sublist (ids : List String) (j : String) :
    List.Sublist (removeJobList ids j) ids :=
  List.filter_sublist ids

theorem removeJobList_of_not_mem {ids : List String} {j : String} (h : j ∉ ids) :
    removeJobList ids j = ids := by
  unfold removeJobList
  refine List.filter_eq_self.mpr ?_
  intro a ha
  simp only [ne_eq, decide_eq_true_eq]
  exact fun hc => h (hc ▸ ha)

theorem removeJobList_addJobList_of_not_mem {ids : List String} {j : String}
    (h : j ∉ ids) : removeJobList (addJobList ids j) j = ids := by
  rw [addJobList_of_not_mem h]
  unfold removeJobList
  rw [List.filter_append]
  have h1 : List.filter (fun id => decide (id ≠ j)) ids = ids := by
    have := removeJobList_of_not_mem h
    simpa [removeJobList] using this
  have h2 : List.filter (fun id => decide (id ≠ j)) [j] = [] := by simp
  rw [h1, h2, List.append_nil]

theorem mem_removeJobList_of_ne {ids : List String} {x k : String}
    (hx : x ∈ ids) (hne : x ≠ k) : x ∈ removeJobList ids k := by
  unfold removeJobList
  exact List.mem_filter.mpr ⟨hx, by simpa using hne⟩

/-- C10: the durable active-job operations behave as set operations on the
stored list.  Adding an id that is already in the stored list leaves the
stored list unchanged; for an id not in the stored list, removing right
after adding restores the original list; and removal drops every occurrence
of the id while preserving the order of the remaining ids (the result is a
sublist keeping every id different from the removed one).  The JSON codec
is an oracle; each hypothesis `hrt*` records that `JSON.parse` inverts
`JSON.stringify` on the concrete list that the operation writes back. -/
theorem activeJobs_set_semantics
    (parse : String → Option (List String)) (stringify : List String → String)
    (s s2 s3 : String) (ids ids2 ids3 : List String) (j j2 k : String)
    (hp : parse s = some ids) (hp2 : parse s2 = some ids2)
    (hp3 : parse s3 = some ids3)
    (hmem : j ∈ ids) (hmem2 : j2 ∉ ids2)
    (hrt1 : parse (stringify (addJobList ids j)) = some (addJobList ids j))
    (hrt2 : parse (stringify (addJobList ids2 j2)) = some (addJobList ids2 j2))
    (hrt2b : parse (stringify (removeJobList (addJobList ids2 j2) j2)) =
      some (removeJobList (addJobList ids2 j2) j2))
    (hrt3 : parse (stringify (removeJobList ids3 k)) =
      some (removeJobList ids3 k)) :
    getActiveJobIds parse (addActiveJob parse stringify (some s) j true) = ids ∧
    getActiveJobIds parse
        (removeActiveJob parse stringify
          (addActiveJob parse stringify (some s2) j2 true) j2 true) = ids2 ∧
    getActiveJobIds parse (removeActiveJob parse stringify (some s3) k true) =
      removeJobList ids3 k ∧
    k ∉ removeJobList ids3 k ∧
    List.Sublist (removeJobList ids3 k) ids3 ∧
    (∀ x ∈ ids3, x ≠ k → x ∈ removeJobList ids3 k) := by
  refine ⟨?_, ?_, ?_, removeJobList_not_mem ids3 k, removeJobList_sublist ids3 k,
    fun x hx hne => mem_removeJobList_of_ne hx hne⟩
  · simp only [addActiveJob, Option.getD, hp, if_true, getActiveJobIds, hrt1]
    rw [addJobList_of_mem hmem]
  · simp only [addActiveJob, Option.getD, hp2, if_true, removeActiveJob,
      getActiveJobIds, hrt2, hrt2b]
    rw [removeJobList_addJobList_of_not_mem hmem2]
  · simp only [removeActiveJob, Option.getD, hp3, if_true, getActiveJobIds, hrt3]

theorem activeJobs_set_semantics_witness :
    getActiveJobIds tableParse
        (addActiveJob tableParse tableStringify (some "a") "a" true) = ["a"] ∧
    getActiveJobIds tableParse
        (removeActiveJob tableParse tableStringify
          (addActiveJob tableParse tableStringify (some "b") "c" true)
          "c" true) = ["b"] ∧
    getActiveJobIds tableParse
        (removeActiveJob tableParse tableStringify (some "x,y,x") "x" true) =
      removeJobList ["x", "y", "x"] "x" ∧
    "x" ∉ removeJobList ["x", "y", "x"] "x" ∧
    List.Sublist (removeJobList ["x", "y", "x"] "x") ["x", "y", "x"] ∧
    (∀ w ∈ ["x", "y", "x"], w ≠ "x" → w ∈ removeJobList ["x", "y", "x"] "x") :=
  activeJobs_set_semantics tableParse tableStringify
    "a" "b" "x,y,x" ["a"] ["b"] ["x", "y", "x"]
    "a" "c" "x" (by decide) (by decide) (by decide) (by decide) (by decide)
    (by decide) (by decide) (by decide) (by decide)

/-- C8: reading the durable active-job set is fail-open, and writes swallow
storage failures.  A missing stored value or one that does not parse yields
the empty list from `getActiveJobIds`, and `addActiveJob`/`removeActiveJob`
leave the store untouched when the stored value does not parse or when the
write fails, rather than propagating an error. -/
theorem activeJobs_fail_open
    (parse : String → Option (List String)) (stringify : List String → String)
    (s : String) (store : Option String) (j : String) (w : Bool)
    (hempty : parse "[]" = some [])
    (hbad : parse s = none) :
    getActiveJobIds parse none = [] ∧
    getActiveJobIds parse (some s) = [] ∧
    addActiveJob parse stringify (some s) j w = some s ∧
    removeActiveJob parse stringify (some s) j w = some s ∧
    addActiveJob parse stringify store j false = store ∧
    removeActiveJob parse stringify store j false = store := by
  refine ⟨?_, ?_, ?_, ?_, ?_, ?_⟩
  · simp [getActiveJobIds, hempty]
  · simp [getActiveJobIds, hbad]
  · simp [addActiveJob, hbad]
  · simp [removeActiveJob, hbad]
  · unfold addActiveJob
    cases parse (store.getD "[]") <;> simp
  · unfold removeActiveJob
    cases parse (store.getD "[]") <;> simp

theorem activeJobs_fail_open_witness :
    getActiveJobIds (fun x => if x = "[]" then some [] else none) none = [] ∧
    getActiveJobIds (fun x => if x = "[]" then some [] else none)
      (some "corrupt") = [] ∧
    addActiveJob (fun x => if x = "[]" then some [] else none)
      (fun _ => "") (some "corrupt") "a" true = some "corrupt" ∧
    removeActiveJob (fun x => if x = "[]" then some [] else none)
      (fun _ => "") (some "corrupt") "a" true = some "corrupt" ∧
    addActiveJob (fun x => if x = "[]" then some [] else none)
      (fun _ => "") (some "z") "a" false = some "z" ∧
    removeActiveJob (fun x => if x = "[]" then some [] else none)
      (fun _ => "") (some "z") "a" false = some "z" :=
  activeJobs_fail_open (fun x => if x = "[]" then some [] else none)
    (fun _ => "") "corrupt" (some "z") "a" true (by decide) (by decide)

/-! ### Lemmas about the batch loop -/

theorem batchLoop_all_ok (units : Nat → Except String GeneratedImage)
    (imgs : Nat → GeneratedImage) (count : Nat) :
    ∀ j i results delays, count - i = j → 1 ≤ i →
      (∀ n, i ≤ n → n < count → units n = .ok (imgs n)) →
      batchLoop units count i results delays =
        (.ok (results ++ (List.range' i (count - i)).map imgs),
         delays ++ List.replicate (count - i) DELAY_MS) := by
  intro j
  induction j with
  | zero =>
      intro i results delays hj h1 _
      unfold batchLoop
      have hic : ¬ i < count := by omega
      simp [hic, hj]
  | succ m ih =>
      intro i results delays hj h1 hok
      have hic : i < count := by omega
      unfold batchLoop
      rw [dif_pos hic]
      simp only [if_pos (by omega : 0 < i)]
      rw [hok i le_rfl hic]
      show batchLoop units count (i + 1) (results ++ [imgs i])
        (delays ++ [DELAY_MS]) = _
      have hrec := ih (i + 1) (results ++ [imgs i]) (delays ++ [DELAY_MS])
        (by omega) (by omega) (fun n hn hnc => hok n (by omega) hnc)
      rw [hrec]
      have hci : count - i = m + 1 := hj
      rw [hci]
      have hci1 : count - (i + 1) = m := by omega
      rw [hci1]
      have hr : List.range' i (m + 1) = i :: List.range' (i + 1) m := rfl
      rw [hr]
      simp [List.replicate_succ, List.append_assoc]

theorem batchLoop_fail_partial (units : Nat → Except String GeneratedImage)
    (imgs : Nat → GeneratedImage) (count a : Nat) (e : String) :
    ∀ j i results delays, a - i = j → 1 ≤ i → i ≤ a → a < count →
      (∀ n, i ≤ n → n < a → units n = .ok (imgs n)) →
      units a = .error e → results ≠ [] →
      batchLoop units count i results delays =
        (.ok (results ++ (List.range' i (a - i)).map imgs),
         delays ++ List.replicate (a - i + 1) DELAY_MS) := by
  intro j
  induction j with
  | zero =>
      intro i results delays hj h1 hia hac _ hfail hne
      have hie : i = a := by omega
      subst hie
      unfold batchLoop
      rw [dif_pos (by omega : i < count)]
      simp only [if_pos (by omega : 0 < i)]
      rw [hfail]
      have : results.isEmpty = false := by
        cases results with
        | nil => exact absurd rfl hne
        | cons x xs => rfl
      simp [this, hj]
  | succ m ih =>
      intro i results delays hj h1 hia hac hok hfail hne
      have hia' : i < a := by omega
      unfold batchLoop
      rw [dif_pos (by omega : i < count)]
      simp only [if_pos (by omega : 0 < i)]
      rw [hok i le_rfl hia']
      show batchLoop units count (i + 1) (results ++ [imgs i])
        (delays ++ [DELAY_MS]) = _
      have hrec := ih (i + 1) (results ++ [imgs i]) (delays ++ [DELAY_MS])
        (by omega) (by omega) (by omega) hac
        (fun n hn hna => hok n (by omega) hna) hfail (by simp)
      rw [hrec]
      have hci : a - i = m + 1 := hj
      rw [hci]
      have hci1 : a - (i + 1) = m := by omega
      rw [hci1]
      have hr : List.range' i (m + 1) = i :: List.range' (i + 1) m := rfl
      rw [hr]
      simp [List.replicate_succ, List.append_assoc]

/-- C1: batch execution issues units sequentially with a fixed `DELAY_MS`
inter-request delay (one delay per unit after the first); a failure with
zero successes so far fails the whole batch with that error and returns no
assets; a failure after `k ≥ 1` successes returns exactly the `k` successes
produced so far with no batch-level error; and a fully successful batch
returns all `count` results. -/
theorem generateBatchImages_partial_results
    (unitsA unitsB unitsC : Nat → Except String GeneratedImage)
    (imgsB imgsC : Nat → GeneratedImage)
    (countA countB countC k : Nat) (eA eB : String)
    (hA0 : unitsA 0 = .error eA) (hAc : 0 < countA)
    (hBk : 0 < k) (hBc : k < countB)
    (hBsucc : ∀ i, i < k → unitsB i = .ok (imgsB i))
    (hBfail : unitsB k = .error eB)
    (hCsucc : ∀ i, i < countC → unitsC i = .ok (imgsC i)) :
    generateBatchImages unitsA countA = (.error eA, []) ∧
    generateBatchImages unitsB countB =
      (.ok ((List.range k).map imgsB), List.replicate k DELAY_MS) ∧
    ((List.range k).map imgsB).length = k ∧
    generateBatchImages unitsC countC =
      (.ok ((List.range countC).map imgsC),
       List.replicate (countC - 1) DELAY_MS) := by
  refine ⟨?_, ?_, by simp, ?_⟩
  · unfold generateBatchImages batchLoop
    rw [dif_pos hAc, hA0]
    simp
  · unfold generateBatchImages batchLoop
    rw [dif_pos (by omega : 0 < countB)]
    simp only [lt_irrefl, if_false]
    rw [hBsucc 0 hBk]
    show batchLoop unitsB countB 1 [imgsB 0] [] = _
    have := batchLoop_fail_partial unitsB imgsB countB k eB (k - 1) 1
      [imgsB 0] [] (by omega) le_rfl (by omega) hBc
      (fun n hn hna => hBsucc n hna) hBfail (by simp)
    rw [this]
    have hk : k - 1 + 1 = k := by omega
    rw [hk]
    have hr : List.range k = 0 :: List.range' 1 (k - 1) := by
      rw [List.range_eq_range']
      cases k with
      | zero => omega
      | succ n => simp [List.range'_succ]
    rw [hr]
    simp
  · cases Nat.eq_zero_or_pos countC with
    | inl h0 =>
        subst h0
        unfold generateBatchImages batchLoop
        simp
    | inr hpos =>
        unfold generateBatchImages batchLoop
        rw [dif_pos hpos]
        simp only [lt_irrefl, if_false]
        rw [hCsucc 0 hpos]
        show batchLoop unitsC countC 1 [imgsC 0] [] = _
        have := batchLoop_all_ok unitsC imgsC countC (countC - 1) 1
          [imgsC 0] [] (by omega) le_rfl
          (fun n hn hnc => hCsucc n hnc)
        rw [this]
        have hr : List.range countC = 0 :: List.range' 1 (countC - 1) := by
          rw [List.range_eq_range']
          cases countC with
          | zero => omega
          | succ n => simp [List.range'_succ]
        rw [hr]
        simp

theorem generateBatchImages_partial_results_witness :
    generateBatchImages (fun _ => .error "boom") 1 = (.error "boom", []) ∧
    generateBatchImages
        (fun n => if n < 2 then .ok sampleImage else .error "late") 3 =
      (.ok ((List.range 2).map (fun _ => sampleImage)),
       List.replicate 2 DELAY_MS) ∧
    ((List.range 2).map (fun (_ : Nat) => sampleImage)).length = 2 ∧
    generateBatchImages (fun _ => .ok sampleImage) 2 =
      (.ok ((List.range 2).map (fun _ => sampleImage)),
       List.replicate (2 - 1) DELAY_MS) :=
  generateBatchImages_partial_results (fun _ => .error "boom")
    (fun n => if n < 2 then .ok sampleImage else .error "late")
    (fun _ => .ok sampleImage) (fun _ => sampleImage) (fun _ => sampleImage)
    1 3 2 2 "boom" "late" rfl (by decide) (by decide) (by decide)
    (fun i hi => by simp [hi]) (by simp) (fun i _ => rfl)

/-! ### Submission-time placeholders -/

theorem submissionPlaceholders_length (batchId : String)
    (params : ImageGenerationParams) (first : Bool) (n : Nat) :
    (submissionPlaceholders batchId params first n).length = n := by
  simp [submissionPlaceholders, placeholderIdsFor]

/-- C6: submitting a batch of size N with a non-empty (trimmed) prompt
creates exactly N placeholders synchronously, prepended to the grid at
submission time, each carrying the request aspect ratio and image size;
the batch is enqueued at the tail of the queue; and the Sequencer state
(`isProcessing`) is neither consulted for the placeholder creation nor
modified (the theorem holds for every state, whatever the flag). -/
theorem handleGenerate_creates_placeholders
    (st : AppState) (params : ImageGenerationParams) (batchSize : Nat)
    (batchId : String) (hprompt : jsTrim params.prompt ≠ "") :
    (handleGenerate st params batchSize batchId).gridItems =
      submissionPlaceholders batchId params (st.queue.length == 0) batchSize
        ++ st.gridItems ∧
    (submissionPlaceholders batchId params (st.queue.length == 0)
        batchSize).length = batchSize ∧
    (∀ p ∈ submissionPlaceholders batchId params (st.queue.length == 0)
        batchSize,
      ∃ pid status,
        p = .placeholder pid status params.aspectRatio params.imageSize) ∧
    (handleGenerate st params batchSize batchId).queue =
      st.queue ++ [⟨batchId, params, batchSize⟩] ∧
    (handleGenerate st params batchSize batchId).isProcessing =
      st.isProcessing ∧
    (handleGenerate st params batchSize batchId).error = none := by
  refine ⟨?_, submissionPlaceholders_length _ _ _ _, ?_, ?_, ?_, ?_⟩
  · simp [handleGenerate, hprompt]
  · intro p hp
    simp only [submissionPlaceholders, List.mem_map] at hp
    obtain ⟨pid, _, rfl⟩ := hp
    exact ⟨pid, _, rfl⟩
  · simp [handleGenerate, hprompt]
  · simp [handleGenerate, hprompt]
  · simp [handleGenerate, hprompt]

theorem handleGenerate_creates_placeholders_witness :
    (handleGenerate ⟨[], [], false, none⟩
        ⟨"a red balloon", "1:1", "1K", none, none, [], []⟩ 2
        "batch-1").gridItems =
      submissionPlaceholders "batch-1"
        ⟨"a red balloon", "1:1", "1K", none, none, [], []⟩
        (([] : List QueuedBatch).length == 0) 2 ++ [] ∧
    (submissionPlaceholders "batch-1"
        ⟨"a red balloon", "1:1", "1K", none, none, [], []⟩
        (([] : List QueuedBatch).length == 0) 2).length = 2 ∧
    (∀ p ∈ submissionPlaceholders "batch-1"
        ⟨"a red balloon", "1:1", "1K", none, none, [], []⟩
        (([] : List QueuedBatch).length == 0) 2,
      ∃ pid status, p = .placeholder pid status "1:1" "1K") ∧
    (handleGenerate ⟨[], [], false, none⟩
        ⟨"a red balloon", "1:1", "1K", none, none, [], []⟩ 2
        "batch-1").queue =
      [] ++ [⟨"batch-1", ⟨"a red balloon", "1:1", "1K", none, none, [], []⟩,
        2⟩] ∧
    (handleGenerate ⟨[], [], false, none⟩
        ⟨"a red balloon", "1:1", "1K", none, none, [], []⟩ 2
        "batch-1").isProcessing = false ∧
    (handleGenerate ⟨[], [], false, none⟩
        ⟨"a red balloon", "1:1", "1K", none, none, [], []⟩ 2
        "batch-1").error = none :=
  handleGenerate_creates_placeholders ⟨[], [], false, none⟩
    ⟨"a red balloon", "1:1", "1K", none, none, [], []⟩ 2 "batch-1"
    (by decide)

/-! ### Persistence failures keep images locally -/

/-- C9: a successfully generated image whose persistence fails is still
added to the display list, built from its locally known id, url, prompt,
aspect ratio and size, and the persistence failure does not surface as a
batch error (`error` is untouched on the success path of
`processBatch`). -/
theorem persistence_failure_kept_locally
    (save : GeneratedImage → Except String StoredImage)
    (creator : Option CreatorInfo) (imgs : List GeneratedImage)
    (st : AppState) (phIds : List String) (i : Nat) (img : GeneratedImage)
    (e : String) (himg : imgs[i]? = some img) (hfail : save img = .error e) :
    (saveLoop save creator imgs).length = imgs.length ∧
    (saveLoop save creator imgs)[i]? =
      some (.image img.id img.url img.aspectRatio img.prompt img.imageSize
        creator) ∧
    (processBatchResolve st phIds (.ok imgs) save creator).error = st.error ∧
    (processBatchResolve st phIds (.ok imgs) save creator).gridItems =
      saveLoop save creator imgs ++ st.gridItems.filter (keepItem phIds) := by
  refine ⟨by simp [saveLoop], ?_, by simp [processBatchResolve], by
    simp [processBatchResolve]⟩
  unfold saveLoop
  rw [List.getElem?_map, himg]
  simp [hfail]

theorem persistence_failure_kept_locally_witness :
    (saveLoop (fun _ => .error "db down") none [sampleImage]).length =
      [sampleImage].length ∧
    (saveLoop (fun _ => .error "db down") none [sampleImage])[0]? =
      some (.image sampleImage.id sampleImage.url sampleImage.aspectRatio
        sampleImage.prompt sampleImage.imageSize none) ∧
    (processBatchResolve ⟨[], [], true, none⟩ []
        (.ok [sampleImage]) (fun _ => .error "db down") none).error = none ∧
    (processBatchResolve ⟨[], [], true, none⟩ []
        (.ok [sampleImage]) (fun _ => .error "db down") none).gridItems =
      saveLoop (fun _ => .error "db down") none [sampleImage] ++
        ([] : List GridItem).filter (keepItem []) :=
  persistence_failure_kept_locally (fun _ => .error "db down") none
    [sampleImage] ⟨[], [], true, none⟩ [] 0 sampleImage "db down"
    rfl rfl

/-! ### Sequencer mutual exclusion -/

theorem list_eq_singleton_of_length_le_one {l : List String} {b : String}
    (hlen : l.length ≤ 1) (hb : b ∈ l) : l = [b] := by
  cases l with
  | nil => simp at hb
  | cons x xs =>
      cases xs with
      | nil => simp at hb; simp [hb]
      | cons y ys => simp at hlen

/-- C4: along every execution of the App queue machinery from the initial
state, at most one batch is in flight, and whenever the `isProcessing`
guard is down nothing is in flight — the boolean flag checked before
dequeuing gives cooperative mutual exclusion, so two batch executions
never overlap. -/
theorem sequencer_mutual_exclusion (s : SequencerState)
    (h : Relation.ReflTransGen SequencerStep sequencerInit s) :
    s.inFlight.length ≤ 1 ∧ (s.isProcessing = false → s.inFlight = []) := by
  induction h with
  | refl => simp [sequencerInit]
  | tail _ hstep ih =>
      rename_i mid hpre
      cases hstep with
      | submit b => exact ih
      | start b rest hq hp =>
          have hempty := ih.2 hp
          refine ⟨?_, ?_⟩
          · simp [hempty]
          · intro hproc
            simp at hproc
      | finish b hb =>
          have hsingle := list_eq_singleton_of_length_le_one ih.1 hb
          refine ⟨?_, fun _ => ?_⟩ <;> simp [hsingle]

theorem sequencer_mutual_exclusion_witness :
    sequencerInit.inFlight.length ≤ 1 ∧
    (sequencerInit.isProcessing = false → sequencerInit.inFlight = []) :=
  sequencer_mutual_exclusion sequencerInit Relation.ReflTransGen.refl

/-! ### The retry policy of generateImage -/

theorem plainFailure_spec {r : HttpResponse} (h : plainFailure r = true) :
    isAsync202 r = false ∧ isSyncSuccess r = false := by
  simp only [plainFailure, Bool.and_eq_true, Bool.not_eq_true'] at h
  exact h

theorem genLoop_retry_run (post poll : Nat → HttpResponse)
    (params : ImageGenerationParams) (freshId : String) (now : Nat)
    (store : List String) (a : Nat) (ha : a < MAX_RETRIES)
    (hfa : plainFailure (post a) = true)
    (hstop : isRetryable (post a) = false ∨ a = MAX_RETRIES - 1) :
    ∀ j attempt lastError delays, a - attempt = j → attempt ≤ a →
      (∀ i, attempt ≤ i → i < a →
        plainFailure (post i) = true ∧ isRetryable (post i) = true) →
      genLoop post poll params freshId now store attempt lastError delays =
        (.error (failMsg (post a)), store,
         delays ++ (List.range' attempt (a - attempt)).map
           (fun i => 1000 * 2 ^ i)) := by
  intro j
  induction j with
  | zero =>
      intro attempt lastError delays hj hle _
      have hea : attempt = a := by omega
      subst hea
      unfold genLoop
      rw [dif_pos ha]
      rw [(plainFailure_spec hfa).1, (plainFailure_spec hfa).2]
      have hcond : (!(isRetryable (post attempt)) ||
          (attempt == MAX_RETRIES - 1)) = true := by
        rcases hstop with h | h
        · rw [h]
          rfl
        · rw [h]
          simp
      simp only [Bool.false_eq_true, if_false, hcond, if_true, hj]
      simp
  | succ m ih =>
      intro attempt lastError delays hj hle hrun
      have hlt : attempt < a := by omega
      have hplain := (hrun attempt le_rfl hlt).1
      have hret := (hrun attempt le_rfl hlt).2
      unfold genLoop
      rw [dif_pos (by omega : attempt < MAX_RETRIES)]
      rw [(plainFailure_spec hplain).1, (plainFailure_spec hplain).2]
      have hne : (attempt == MAX_RETRIES - 1) = false := by
        have : attempt ≠ MAX_RETRIES - 1 := by
          simp only [MAX_RETRIES] at ha ⊢
          omega
        simp [this]
      simp only [Bool.false_eq_true, if_false, hret, Bool.not_true, hne,
        Bool.or_self, if_false]
      rw [ih (attempt + 1) (some (failMsg (post attempt)))
        (delays ++ [1000 * 2 ^ attempt]) (by omega) (by omega)
        (fun i h1 h2 => hrun i (by omega) h2)]
      have hr : List.range' attempt (a - attempt) =
          attempt :: List.range' (attempt + 1) (a - (attempt + 1)) := by
        have h1 : a - attempt = (a - (attempt + 1)) + 1 := by omega
        rw [h1]
        rfl
      rw [hr]
      simp [List.append_assoc]

/-- C2: a 429 or 503 response causes the whole call to be retried up to the
`MAX_RETRIES = 3` attempt ceiling, waiting `1000 * 2 ^ attempt` ms before
each retry (a strictly increasing, doubling sequence); any other failing
response propagates immediately with no further delay; and when the run
stops at attempt `a` — because the response is not retryable or the ceiling
is reached — the error thrown is the one built from that last response. -/
theorem generateImage_retry_policy (post poll : Nat → HttpResponse)
    (params : ImageGenerationParams) (freshId : String) (now : Nat)
    (store : List String) (a : Nat) (ha : a < MAX_RETRIES)
    (hrun : ∀ i, i < a →
      plainFailure (post i) = true ∧ isRetryable (post i) = true)
    (hfa : plainFailure (post a) = true)
    (hstop : isRetryable (post a) = false ∨ a = MAX_RETRIES - 1) :
    generateImage post poll params freshId now store =
      (.error (failMsg (post a)), store,
       (List.range a).map (fun i => 1000 * 2 ^ i)) ∧
    List.Chain' (fun x y => y = 2 * x ∧ x < y)
      ((List.range a).map (fun i => 1000 * 2 ^ i)) := by
  constructor
  · unfold generateImage
    rw [genLoop_retry_run post poll params freshId now store a ha hfa hstop
      a 0 none [] (by omega) (by omega) (fun i h1 h2 => hrun i h2)]
    rw [List.range_eq_range']
    simp
  · rw [List.chain'_map]
    cases a with
    | zero => simp
    | succ n =>
        rw [List.chain'_range_succ]
        intro m _
        have hpow : 2 ^ m < 2 ^ (m + 1) :=
          Nat.pow_lt_pow_right (by norm_num) (Nat.lt_succ_self m)
        constructor
        · rw [pow_succ]
          ring
        · omega

theorem generateImage_retry_policy_witness :
    generateImage postRetrySample pollPendingSample sampleParams "img-1" 0
        [] =
      (.error (failMsg (postRetrySample 2)), [],
       (List.range 2).map (fun i => 1000 * 2 ^ i)) ∧
    List.Chain' (fun x y => y = 2 * x ∧ x < y)
      ((List.range 2).map (fun i => 1000 * 2 ^ i)) :=
  generateImage_retry_policy postRetrySample pollPendingSample sampleParams
    "img-1" 0 [] 2 (by decide) (by decide) (by decide) (Or.inr (by decide))

/-! ### The async polling path of generateImage -/

theorem pollWindow_eq : pollWindow = 200 := by
  norm_num [pollWindow, POLL_TIMEOUT_MS, POLL_INTERVAL_MS]

theorem notTerminal_spec {r : HttpResponse} (h : isTerminalPoll r = false) :
    is500Error r = false ∧ isSyncSuccess r = false := by
  simp only [isTerminalPoll, Bool.or_eq_false_iff] at h
  exact h

theorem pollLoop_no_timeout {n : Nat} (hn : n < pollWindow) :
    ¬ POLL_INTERVAL_MS * (n + 1) > POLL_TIMEOUT_MS := by
  rw [pollWindow_eq] at hn
  simp only [POLL_INTERVAL_MS, POLL_TIMEOUT_MS, gt_iff_lt, not_lt]
  omega

theorem pollLoop_first_terminal (poll : Nat → HttpResponse)
    (params : ImageGenerationParams) (freshId : String) (now : Nat)
    (t : Nat) (htw : t < pollWindow)
    (hterm : isTerminalPoll (poll t) = true) :
    ∀ j n, t - n = j → n ≤ t →
      (∀ m, n ≤ m → m < t → isTerminalPoll (poll m) = false) →
      pollLoop poll params freshId now n =
        terminalOutcome (poll t) params freshId now := by
  intro j
  induction j with
  | zero =>
      intro n hj hle _
      have hnt : n = t := by omega
      subst hnt
      unfold pollLoop
      rw [dif_neg (pollLoop_no_timeout htw)]
      unfold terminalOutcome
      by_cases h5 : is500Error (poll n) = true
      · rw [if_pos h5, if_pos h5]
      · rw [if_neg h5, if_neg h5]
        have hsync : isSyncSuccess (poll n) = true := by
          rcases (Bool.or_eq_true _ _).mp hterm with h | h
          · exact absurd h h5
          · exact h
        rw [if_pos hsync]
  | succ m ih =>
      intro n hj hle hmin
      have hlt : n < t := by omega
      have hnt := notTerminal_spec (hmin n le_rfl hlt)
      unfold pollLoop
      rw [dif_neg (pollLoop_no_timeout (by omega : n < pollWindow))]
      rw [if_neg (by simp [hnt.1]), if_neg (by simp [hnt.2])]
      exact ih (n + 1) (by omega) (by omega)
        (fun m' h1 h2 => hmin m' (by omega) h2)

theorem pollLoop_timeout (poll : Nat → HttpResponse)
    (params : ImageGenerationParams) (freshId : String) (now : Nat)
    (hno : ∀ m, m < pollWindow → isTerminalPoll (poll m) = false) :
    ∀ j n, pollWindow - n = j →
      pollLoop poll params freshId now n =
        .error "Generation timed out" := by
  intro j
  induction j with
  | zero =>
      intro n hj
      unfold pollLoop
      rw [dif_pos ?_]
      rw [pollWindow_eq] at hj
      simp only [POLL_INTERVAL_MS, POLL_TIMEOUT_MS, gt_iff_lt]
      omega
  | succ m ih =>
      intro n hj
      have hlt : n < pollWindow := by omega
      have hnt := notTerminal_spec (hno n hlt)
      unfold pollLoop
      rw [dif_neg (pollLoop_no_timeout hlt)]
      rw [if_neg (by simp [hnt.1]), if_neg (by simp [hnt.2])]
      exact ih (n + 1) (by omega)

theorem generateImage_async_step (post poll : Nat → HttpResponse)
    (params : ImageGenerationParams) (freshId : String) (now : Nat)
    (store : List String) (j : String)
    (h202 : isAsync202 (post 0) = true)
    (hj : (post 0).data.jobId = some j) :
    generateImage post poll params freshId now store =
      (pollLoop poll params freshId now 0,
       removeJobList (addJobList store j) j, []) := by
  unfold generateImage genLoop
  rw [dif_pos (by norm_num [MAX_RETRIES] : 0 < MAX_RETRIES)]
  rw [if_pos h202, hj]
  simp

/-- C3: when the first POST is answered 202 with a job id, `generateImage`
adds the job id to the durable active-job set (which therefore contains it
while polling) and then polls the status endpoint, sleeping exactly
`POLL_INTERVAL_MS = 1500` ms per iteration, until the first terminal
response — an explicit error payload on a 500 status, or a success
payload — or until the absolute `POLL_TIMEOUT_MS` (5 minutes, i.e.
`pollWindow = 200` polls) elapses, whichever comes first; on every exit
path the final durable set is the original one with the job id removed
(so the id is gone), and a timeout yields the distinct generic
`Generation timed out` failure rather than an upstream error. -/
theorem generateImage_async_polling (post poll pollT : Nat → HttpResponse)
    (params : ImageGenerationParams) (freshId : String) (now : Nat)
    (store : List String) (j : String) (t : Nat)
    (h202 : isAsync202 (post 0) = true)
    (hj : (post 0).data.jobId = some j)
    (htw : t < pollWindow)
    (hterm : isTerminalPoll (poll t) = true)
    (hmin : ∀ m, m < t → isTerminalPoll (poll m) = false)
    (hnone : ∀ m, m < pollWindow → isTerminalPoll (pollT m) = false) :
    j ∈ addJobList store j ∧
    (generateImage post poll params freshId now store).2.1 =
      removeJobList (addJobList store j) j ∧
    j ∉ (generateImage post poll params freshId now store).2.1 ∧
    (generateImage post poll params freshId now store).1 =
      terminalOutcome (poll t) params freshId now ∧
    (generateImage post pollT params freshId now store).1 =
      .error "Generation timed out" ∧
    (generateImage post pollT params freshId now store).2.1 =
      removeJobList (addJobList store j) j ∧
    j ∉ (generateImage post pollT params freshId now store).2.1 ∧
    POLL_INTERVAL_MS = 1500 ∧ POLL_TIMEOUT_MS = 5 * 60 * 1000 ∧
    pollWindow = 200 := by
  have hstep := generateImage_async_step post poll params freshId now store
    j h202 hj
  have hstepT := generateImage_async_step post pollT params freshId now
    store j h202 hj
  have hpoll := pollLoop_first_terminal poll params freshId now t htw hterm
    t 0 (by omega) (by omega) (fun m _ h2 => hmin m h2)
  have hpollT := pollLoop_timeout pollT params freshId now hnone
    (pollWindow - 0) 0 rfl
  refine ⟨addJobList_mem_self store j, ?_, ?_, ?_, ?_, ?_, ?_, rfl, rfl,
    pollWindow_eq⟩
  · rw [hstep]
  · rw [hstep]
    exact removeJobList_not_mem _ _
  · rw [hstep]
    exact hpoll
  · rw [hstepT]
    exact hpollT
  · rw [hstepT]
  · rw [hstepT]
    exact removeJobList_not_mem _ _

theorem generateImage_async_polling_witness :
    "job1" ∈ addJobList [] "job1" ∧
    (generateImage post202Sample pollSuccessSample sampleParams "img-1" 0
        []).2.1 = removeJobList (addJobList [] "job1") "job1" ∧
    "job1" ∉ (generateImage post202Sample pollSuccessSample sampleParams
        "img-1" 0 []).2.1 ∧
    (generateImage post202Sample pollSuccessSample sampleParams "img-1" 0
        []).1 = terminalOutcome (pollSuccessSample 0) sampleParams "img-1"
        0 ∧
    (generateImage post202Sample pollPendingSample sampleParams "img-1" 0
        []).1 = .error "Generation timed out" ∧
    (generateImage post202Sample pollPendingSample sampleParams "img-1" 0
        []).2.1 = removeJobList (addJobList [] "job1") "job1" ∧
    "job1" ∉ (generateImage post202Sample pollPendingSample sampleParams
        "img-1" 0 []).2.1 ∧
    POLL_INTERVAL_MS = 1500 ∧ POLL_TIMEOUT_MS = 5 * 60 * 1000 ∧
    pollWindow = 200 :=
  generateImage_async_polling post202Sample pollSuccessSample
    pollPendingSample sampleParams "img-1" 0 [] "job1" 0 (by decide)
    (by decide) (by decide) (by decide)
    (fun m hm => absurd hm (Nat.not_lt_zero m)) (fun m _ => rfl)

/-! ### Recovery of in-flight jobs after reload -/

/-- C5 (failing-input evidence): with job id `job1` in the durable set at
application start and the status endpoint answering a terminal success
payload on the very first poll, the recovery effect creates exactly one
`generating` placeholder `recovery-job1`; the poller reports completion,
the job id is removed from the durable set and the gallery refresh key is
bumped — but the placeholder survives the completion: the service invokes
the completion callback with zero arguments (`onComplete()`), so the App
handler's `completedJobId` parameter is the JS value `undefined` and its
removal filter targets the nonexistent placeholder id
`recovery-undefined`. -/
theorem recovery_placeholder_never_removed :
    recoverEffect ["job1"] [] =
      [.placeholder "recovery-job1" .generating "3:2" "1K"] ∧
    (runRecoveredJob pollSuccessSample "job1" ["job1"]
        (recoverEffect ["job1"] []) 0).1 = true ∧
    (runRecoveredJob pollSuccessSample "job1" ["job1"]
        (recoverEffect ["job1"] []) 0).2.1 = [] ∧
    (runRecoveredJob pollSuccessSample "job1" ["job1"]
        (recoverEffect ["job1"] []) 0).2.2.2 = 1 ∧
    (runRecoveredJob pollSuccessSample "job1" ["job1"]
        (recoverEffect ["job1"] []) 0).2.2.1 =
      [.placeholder "recovery-job1" .generating "3:2" "1K"] := by
  have hpoll : pollJobUntilComplete pollSuccessSample "job1" ["job1"]
      (5 * 60 * 1000) 0 = (true, removeJobList ["job1"] "job1") := by
    unfold pollJobUntilComplete
    rw [dif_pos (by norm_num [POLL_INTERVAL_MS])]
    rw [if_neg (by decide), if_pos (by decide)]
  refine ⟨rfl, ?_, ?_, ?_, ?_⟩ <;>
    simp [runRecoveredJob, hpoll, onJobComplete, recoverEffect,
      recoveryPlaceholders, jsArgString, removeJobList]

/-! ### Binary64 rounding: evaluation lemmas -/

theorem pow2_eq_zpow (n : ℤ) : pow2 n = (2 : ℚ) ^ n := by
  unfold pow2
  by_cases h : 0 ≤ n
  · rw [if_pos h, ← zpow_natCast (2 : ℚ) n.toNat, Int.toNat_of_nonneg h]
  · rw [if_neg h]
    have hm : (((-n).toNat : ℤ)) = -n := Int.toNat_of_nonneg (by omega)
    rw [one_div, ← zpow_natCast (2 : ℚ) (-n).toNat, hm, zpow_neg, inv_inv]

theorem int_log_eq_of_pow2 {x : ℚ} {e : ℤ} (hx : 0 < x)
    (h1 : pow2 e ≤ x) (h2 : x < pow2 (e + 1)) :
    Int.log 2 x = e := by
  rw [pow2_eq_zpow] at h1 h2
  have h1' : ((2 : ℕ) : ℚ) ^ e ≤ x := by exact_mod_cast h1
  have h2' : x < ((2 : ℕ) : ℚ) ^ (e + 1) := by exact_mod_cast h2
  have ha : e ≤ Int.log 2 x := (Int.zpow_le_iff_le_log one_lt_two hx).mp h1'
  have hb : Int.log 2 x < e + 1 :=
    (Int.lt_zpow_iff_log_lt one_lt_two hx).mp h2'
  omega

theorem roundB64_pos (x : ℚ) (e : ℤ) (hx : 0 < x)
    (h1 : pow2 e ≤ x) (h2 : x < pow2 (e + 1)) :
    roundB64 x = (rne (x * pow2 (52 - e)) : ℚ) * pow2 (e - 52) := by
  unfold roundB64
  rw [if_neg (ne_of_gt hx), if_pos hx, int_log_eq_of_pow2 hx h1 h2]

theorem rne_eq_floor (y : ℚ) (f : ℤ) (hf : ⌊y⌋ = f) (h1 : y - f < 1/2) :
    rne y = f := by
  unfold rne
  rw [hf, if_pos h1]

theorem rne_eq_ceil (y : ℚ) (f : ℤ) (hf : ⌊y⌋ = f) (h1 : 1/2 < y - f) :
    rne y = f + 1 := by
  unfold rne
  rw [hf, if_neg (by linarith), if_pos h1]

theorem rne_tie_even (y : ℚ) (f : ℤ) (hf : ⌊y⌋ = f) (h1 : y - f = 1/2)
    (h2 : f % 2 = 0) : rne y = f := by
  unfold rne
  rw [hf, if_neg (by linarith), if_neg (by linarith), if_pos h2]

theorem rne_tie_odd (y : ℚ) (f : ℤ) (hf : ⌊y⌋ = f) (h1 : y - f = 1/2)
    (h2 : f % 2 = 1) : rne y = f + 1 := by
  unfold rne
  rw [hf, if_neg (by linarith), if_neg (by linarith), if_neg (by omega)]

/-! ### The binary64 values of the quality-loop literals and orbits -/

theorem jsNum_07 : jsNum (7/10) = 3152519739159347 / 2 ^ 52 := by
  unfold jsNum
  rw [roundB64_pos (7/10) (-1) (by norm_num)
    (by rw [pow2_eq_zpow]; norm_num) (by rw [pow2_eq_zpow]; norm_num)]
  rw [rne_eq_floor ((7/10) * pow2 (52 - -1)) 6305039478318694
    (by rw [pow2_eq_zpow]; norm_num)
    (by rw [pow2_eq_zpow]; norm_num)]
  rw [pow2_eq_zpow]
  norm_num

theorem jsNum_01 : jsNum (1/10) = 3602879701896397 / 2 ^ 55 := by
  unfold jsNum
  rw [roundB64_pos (1/10) (-4) (by norm_num)
    (by rw [pow2_eq_zpow]; norm_num) (by rw [pow2_eq_zpow]; norm_num)]
  rw [rne_eq_ceil ((1/10) * pow2 (52 - -4)) 7205759403792793
    (by rw [pow2_eq_zpow]; norm_num)
    (by rw [pow2_eq_zpow]; norm_num)]
  rw [pow2_eq_zpow]
  norm_num

theorem jsNum_02 : jsNum (1/5) = 3602879701896397 / 2 ^ 54 := by
  unfold jsNum
  rw [roundB64_pos (1/5) (-3) (by norm_num)
    (by rw [pow2_eq_zpow]; norm_num) (by rw [pow2_eq_zpow]; norm_num)]
  rw [rne_eq_ceil ((1/5) * pow2 (52 - -3)) 7205759403792793
    (by rw [pow2_eq_zpow]; norm_num)
    (by rw [pow2_eq_zpow]; norm_num)]
  rw [pow2_eq_zpow]
  norm_num

theorem jsNum_055 : jsNum (11/20) = 2476979795053773 / 2 ^ 52 := by
  unfold jsNum
  rw [roundB64_pos (11/20) (-1) (by norm_num)
    (by rw [pow2_eq_zpow]; norm_num) (by rw [pow2_eq_zpow]; norm_num)]
  rw [rne_eq_ceil ((11/20) * pow2 (52 - -1)) 4953959590107545
    (by rw [pow2_eq_zpow]; norm_num)
    (by rw [pow2_eq_zpow]; norm_num)]
  rw [pow2_eq_zpow]
  norm_num

theorem jsNum_008 : jsNum (2/25) = 5764607523034235 / 2 ^ 56 := by
  unfold jsNum
  rw [roundB64_pos (2/25) (-4) (by norm_num)
    (by rw [pow2_eq_zpow]; norm_num) (by rw [pow2_eq_zpow]; norm_num)]
  rw [rne_eq_ceil ((2/25) * pow2 (52 - -4)) 5764607523034234
    (by rw [pow2_eq_zpow]; norm_num)
    (by rw [pow2_eq_zpow]; norm_num)]
  rw [pow2_eq_zpow]
  norm_num

theorem jsNum_015 : jsNum (3/20) = 5404319552844595 / 2 ^ 55 := by
  unfold jsNum
  rw [roundB64_pos (3/20) (-3) (by norm_num)
    (by rw [pow2_eq_zpow]; norm_num) (by rw [pow2_eq_zpow]; norm_num)]
  rw [rne_eq_floor ((3/20) * pow2 (52 - -3)) 5404319552844595
    (by rw [pow2_eq_zpow]; norm_num)
    (by rw [pow2_eq_zpow]; norm_num)]
  rw [pow2_eq_zpow]
  norm_num

theorem fsubA1 : fsub64 (3152519739159347 / 2 ^ 52) (3602879701896397 / 2 ^ 55) = 5404319552844595 / 2 ^ 53 := by
  unfold fsub64
  rw [roundB64_pos (3152519739159347 / 2 ^ 52 - 3602879701896397 / 2 ^ 55) (-1) (by norm_num)
    (by rw [pow2_eq_zpow]; norm_num) (by rw [pow2_eq_zpow]; norm_num)]
  rw [rne_eq_ceil ((3152519739159347 / 2 ^ 52 - 3602879701896397 / 2 ^ 55) * pow2 (52 - -1)) 5404319552844594
    (by rw [pow2_eq_zpow]; norm_num)
    (by rw [pow2_eq_zpow]; norm_num)]
  rw [pow2_eq_zpow]
  norm_num

theorem fsubA2 : fsub64 (5404319552844595 / 2 ^ 53) (3602879701896397 / 2 ^ 55) = 1 / 2 := by
  unfold fsub64
  rw [roundB64_pos (5404319552844595 / 2 ^ 53 - 3602879701896397 / 2 ^ 55) (-2) (by norm_num)
    (by rw [pow2_eq_zpow]; norm_num) (by rw [pow2_eq_zpow]; norm_num)]
  rw [rne_tie_odd ((5404319552844595 / 2 ^ 53 - 3602879701896397 / 2 ^ 55) * pow2 (52 - -2)) 9007199254740991
    (by rw [pow2_eq_zpow]; norm_num)
    (by rw [pow2_eq_zpow]; norm_num) (by norm_num)]
  rw [pow2_eq_zpow]
  norm_num

theorem fsubA3 : fsub64 (1 / 2) (3602879701896397 / 2 ^ 55) = 3602879701896397 / 2 ^ 53 := by
  unfold fsub64
  rw [roundB64_pos (1 / 2 - 3602879701896397 / 2 ^ 55) (-2) (by norm_num)
    (by rw [pow2_eq_zpow]; norm_num) (by rw [pow2_eq_zpow]; norm_num)]
  rw [rne_tie_odd ((1 / 2 - 3602879701896397 / 2 ^ 55) * pow2 (52 - -2)) 7205759403792793
    (by rw [pow2_eq_zpow]; norm_num)
    (by rw [pow2_eq_zpow]; norm_num) (by norm_num)]
  rw [pow2_eq_zpow]
  norm_num

theorem fsubA4 : fsub64 (3602879701896397 / 2 ^ 53) (3602879701896397 / 2 ^ 55) = 1351079888211149 / 2 ^ 52 := by
  unfold fsub64
  rw [roundB64_pos (3602879701896397 / 2 ^ 53 - 3602879701896397 / 2 ^ 55) (-2) (by norm_num)
    (by rw [pow2_eq_zpow]; norm_num) (by rw [pow2_eq_zpow]; norm_num)]
  rw [rne_tie_odd ((3602879701896397 / 2 ^ 53 - 3602879701896397 / 2 ^ 55) * pow2 (52 - -2)) 5404319552844595
    (by rw [pow2_eq_zpow]; norm_num)
    (by rw [pow2_eq_zpow]; norm_num) (by norm_num)]
  rw [pow2_eq_zpow]
  norm_num

theorem fsubA5 : fsub64 (1351079888211149 / 2 ^ 52) (3602879701896397 / 2 ^ 55) = 7205759403792795 / 2 ^ 55 := by
  unfold fsub64
  rw [roundB64_pos (1351079888211149 / 2 ^ 52 - 3602879701896397 / 2 ^ 55) (-3) (by norm_num)
    (by rw [pow2_eq_zpow]; norm_num) (by rw [pow2_eq_zpow]; norm_num)]
  rw [rne_eq_floor ((1351079888211149 / 2 ^ 52 - 3602879701896397 / 2 ^ 55) * pow2 (52 - -3)) 7205759403792795
    (by rw [pow2_eq_zpow]; norm_num)
    (by rw [pow2_eq_zpow]; norm_num)]
  rw [pow2_eq_zpow]
  norm_num

theorem fsubA6 : fsub64 (7205759403792795 / 2 ^ 55) (3602879701896397 / 2 ^ 55) = 1801439850948199 / 2 ^ 54 := by
  unfold fsub64
  rw [roundB64_pos (7205759403792795 / 2 ^ 55 - 3602879701896397 / 2 ^ 55) (-4) (by norm_num)
    (by rw [pow2_eq_zpow]; norm_num) (by rw [pow2_eq_zpow]; norm_num)]
  rw [rne_eq_floor ((7205759403792795 / 2 ^ 55 - 3602879701896397 / 2 ^ 55) * pow2 (52 - -4)) 7205759403792796
    (by rw [pow2_eq_zpow]; norm_num)
    (by rw [pow2_eq_zpow]; norm_num)]
  rw [pow2_eq_zpow]
  norm_num

theorem fsubB1 : fsub64 (2476979795053773 / 2 ^ 52) (5764607523034235 / 2 ^ 56) = 8466767299456533 / 2 ^ 54 := by
  unfold fsub64
  rw [roundB64_pos (2476979795053773 / 2 ^ 52 - 5764607523034235 / 2 ^ 56) (-2) (by norm_num)
    (by rw [pow2_eq_zpow]; norm_num) (by rw [pow2_eq_zpow]; norm_num)]
  rw [rne_eq_floor ((2476979795053773 / 2 ^ 52 - 5764607523034235 / 2 ^ 56) * pow2 (52 - -2)) 8466767299456533
    (by rw [pow2_eq_zpow]; norm_num)
    (by rw [pow2_eq_zpow]; norm_num)]
  rw [pow2_eq_zpow]
  norm_num

theorem fsubB2 : fsub64 (8466767299456533 / 2 ^ 54) (5764607523034235 / 2 ^ 56) = 3512807709348987 / 2 ^ 53 := by
  unfold fsub64
  rw [roundB64_pos (8466767299456533 / 2 ^ 54 - 5764607523034235 / 2 ^ 56) (-2) (by norm_num)
    (by rw [pow2_eq_zpow]; norm_num) (by rw [pow2_eq_zpow]; norm_num)]
  rw [rne_eq_floor ((8466767299456533 / 2 ^ 54 - 5764607523034235 / 2 ^ 56) * pow2 (52 - -2)) 7025615418697974
    (by rw [pow2_eq_zpow]; norm_num)
    (by rw [pow2_eq_zpow]; norm_num)]
  rw [pow2_eq_zpow]
  norm_num

theorem fsubB3 : fsub64 (3512807709348987 / 2 ^ 53) (5764607523034235 / 2 ^ 56) = 5584463537939415 / 2 ^ 54 := by
  unfold fsub64
  rw [roundB64_pos (3512807709348987 / 2 ^ 53 - 5764607523034235 / 2 ^ 56) (-2) (by norm_num)
    (by rw [pow2_eq_zpow]; norm_num) (by rw [pow2_eq_zpow]; norm_num)]
  rw [rne_eq_floor ((3512807709348987 / 2 ^ 53 - 5764607523034235 / 2 ^ 56) * pow2 (52 - -2)) 5584463537939415
    (by rw [pow2_eq_zpow]; norm_num)
    (by rw [pow2_eq_zpow]; norm_num)]
  rw [pow2_eq_zpow]
  norm_num

theorem fsubB4 : fsub64 (5584463537939415 / 2 ^ 54) (5764607523034235 / 2 ^ 56) = 517913957147607 / 2 ^ 51 := by
  unfold fsub64
  rw [roundB64_pos (5584463537939415 / 2 ^ 54 - 5764607523034235 / 2 ^ 56) (-3) (by norm_num)
    (by rw [pow2_eq_zpow]; norm_num) (by rw [pow2_eq_zpow]; norm_num)]
  rw [rne_tie_even ((5584463537939415 / 2 ^ 54 - 5764607523034235 / 2 ^ 56) * pow2 (52 - -3)) 8286623314361712
    (by rw [pow2_eq_zpow]; norm_num)
    (by rw [pow2_eq_zpow]; norm_num) (by norm_num)]
  rw [pow2_eq_zpow]
  norm_num

theorem fsubB5 : fsub64 (517913957147607 / 2 ^ 51) (5764607523034235 / 2 ^ 56) = 2702159776422297 / 2 ^ 54 := by
  unfold fsub64
  rw [roundB64_pos (517913957147607 / 2 ^ 51 - 5764607523034235 / 2 ^ 56) (-3) (by norm_num)
    (by rw [pow2_eq_zpow]; norm_num) (by rw [pow2_eq_zpow]; norm_num)]
  rw [rne_tie_even ((517913957147607 / 2 ^ 51 - 5764607523034235 / 2 ^ 56) * pow2 (52 - -3)) 5404319552844594
    (by rw [pow2_eq_zpow]; norm_num)
    (by rw [pow2_eq_zpow]; norm_num) (by norm_num)]
  rw [pow2_eq_zpow]
  norm_num

/-! ### Unfolding the shrinking loop -/

theorem shrinkLoopF_cont (enc : ℚ → ℕ) (maxChars : Nat)
    (floor step : ℚ) (fuel : Nat) (q : ℚ)
    (h : enc q > maxChars ∧ q > floor) :
    shrinkLoopF enc maxChars floor step (fuel + 1) q =
      (q :: (shrinkLoopF enc maxChars floor step fuel (fsub64 q step)).1,
       (shrinkLoopF enc maxChars floor step fuel (fsub64 q step)).2) := by
  rw [shrinkLoopF, if_pos h]

theorem shrinkLoopF_stop (enc : ℚ → ℕ) (maxChars : Nat)
    (floor step : ℚ) (fuel : Nat) (q : ℚ)
    (h : ¬(enc q > maxChars ∧ q > floor)) :
    shrinkLoopF enc maxChars floor step (fuel + 1) q = ([q], q) := by
  rw [shrinkLoopF, if_neg h]

theorem shrinkA (k : Nat) :
    shrinkLoopF (fun _ => 450001) 450000 (3602879701896397 / 2 ^ 54)
      (3602879701896397 / 2 ^ 55) (k + 7) (3152519739159347 / 2 ^ 52) =
    ([3152519739159347 / 2 ^ 52, 5404319552844595 / 2 ^ 53, 1 / 2,
      3602879701896397 / 2 ^ 53, 1351079888211149 / 2 ^ 52,
      7205759403792795 / 2 ^ 55, 1801439850948199 / 2 ^ 54],
     1801439850948199 / 2 ^ 54) := by
  rw [show k + 7 = k + 6 + 1 from rfl,
    shrinkLoopF_cont _ _ _ _ _ _ ⟨by norm_num, by norm_num⟩, fsubA1,
    show k + 6 = k + 5 + 1 from rfl,
    shrinkLoopF_cont _ _ _ _ _ _ ⟨by norm_num, by norm_num⟩, fsubA2,
    show k + 5 = k + 4 + 1 from rfl,
    shrinkLoopF_cont _ _ _ _ _ _ ⟨by norm_num, by norm_num⟩, fsubA3,
    show k + 4 = k + 3 + 1 from rfl,
    shrinkLoopF_cont _ _ _ _ _ _ ⟨by norm_num, by norm_num⟩, fsubA4,
    show k + 3 = k + 2 + 1 from rfl,
    shrinkLoopF_cont _ _ _ _ _ _ ⟨by norm_num, by norm_num⟩, fsubA5,
    show k + 2 = k + 1 + 1 from rfl,
    shrinkLoopF_cont _ _ _ _ _ _ ⟨by norm_num, by norm_num⟩, fsubA6,
    shrinkLoopF_stop _ _ _ _ k _ (fun hc => absurd hc.2 (by norm_num))]

theorem shrinkB (k : Nat) :
    shrinkLoopF (fun _ => 280001) 280000 (5404319552844595 / 2 ^ 55)
      (5764607523034235 / 2 ^ 56) (k + 7) (2476979795053773 / 2 ^ 52) =
    ([2476979795053773 / 2 ^ 52, 8466767299456533 / 2 ^ 54,
      3512807709348987 / 2 ^ 53, 5584463537939415 / 2 ^ 54,
      517913957147607 / 2 ^ 51, 2702159776422297 / 2 ^ 54],
     2702159776422297 / 2 ^ 54) := by
  rw [show k + 7 = k + 6 + 1 from rfl,
    shrinkLoopF_cont _ _ _ _ _ _ ⟨by norm_num, by norm_num⟩, fsubB1,
    show k + 6 = k + 5 + 1 from rfl,
    shrinkLoopF_cont _ _ _ _ _ _ ⟨by norm_num, by norm_num⟩, fsubB2,
    show k + 5 = k + 4 + 1 from rfl,
    shrinkLoopF_cont _ _ _ _ _ _ ⟨by norm_num, by norm_num⟩, fsubB3,
    show k + 4 = k + 3 + 1 from rfl,
    shrinkLoopF_cont _ _ _ _ _ _ ⟨by norm_num, by norm_num⟩, fsubB4,
    show k + 3 = k + 2 + 1 from rfl,
    shrinkLoopF_cont _ _ _ _ _ _ ⟨by norm_num, by norm_num⟩, fsubB5,
    show k + 2 = k + 1 + 1 from rfl,
    shrinkLoopF_stop _ _ _ _ (k + 1) _
      (fun hc => absurd hc.2 (by norm_num))]

/-- C7 (failing-input evidence): the claim fails on the code because the
quality arithmetic is IEEE binary64 and the drift violates the floor on
the escape-hatch path, for any fuel bound beyond the run.  First variant,
with an encoder that never fits the 450000 budget: since
`0.7 - 5 * 0.1` is `0.20000000000000004 > 0.2` in doubles, the loop runs a
sixth decrement, performing 7 encodes and emitting output at quality
`0.10000000000000003` — a full step below the `0.2` floor (both below the
exact `1/5` and below the double `0.2`).  Aggressive variant, never
fitting 280000: the final quality is `0.14999999999999997`, strictly below
the exact `3/20` floor and the double `0.15`.  Both runs exit through the
loop guard (the final quality fails `quality > floor`), not by fuel
exhaustion. -/
theorem compressImageForReference_floor_violated (k : Nat) :
    (compressImageForReference (fun _ => 450001) (k + 7)).1.length = 7 ∧
    (compressImageForReference (fun _ => 450001) (k + 7)).2 =
      1801439850948199 / 2 ^ 54 ∧
    (compressImageForReference (fun _ => 450001) (k + 7)).2 < 1/5 ∧
    (compressImageForReference (fun _ => 450001) (k + 7)).2 <
      jsNum (1/5) ∧
    (compressImageForReferenceAggressive (fun _ => 280001)
        (k + 7)).1.length = 6 ∧
    (compressImageForReferenceAggressive (fun _ => 280001) (k + 7)).2 =
      2702159776422297 / 2 ^ 54 ∧
    (compressImageForReferenceAggressive (fun _ => 280001) (k + 7)).2 <
      3/20 ∧
    (compressImageForReferenceAggressive (fun _ => 280001) (k + 7)).2 <
      jsNum (3/20) := by
  have hA : compressImageForReference (fun _ => 450001) (k + 7) =
      ([3152519739159347 / 2 ^ 52, 5404319552844595 / 2 ^ 53, 1 / 2,
        3602879701896397 / 2 ^ 53, 1351079888211149 / 2 ^ 52,
        7205759403792795 / 2 ^ 55, 1801439850948199 / 2 ^ 54],
       1801439850948199 / 2 ^ 54) := by
    unfold compressImageForReference
    rw [jsNum_02, jsNum_01, jsNum_07, shrinkA]
  have hB : compressImageForReferenceAggressive (fun _ => 280001) (k + 7) =
      ([2476979795053773 / 2 ^ 52, 8466767299456533 / 2 ^ 54,
        3512807709348987 / 2 ^ 53, 5584463537939415 / 2 ^ 54,
        517913957147607 / 2 ^ 51, 2702159776422297 / 2 ^ 54],
       2702159776422297 / 2 ^ 54) := by
    unfold compressImageForReferenceAggressive
    rw [jsNum_015, jsNum_008, jsNum_055, shrinkB]
  rw [hA, hB, jsNum_02, jsNum_015]
  refine ⟨rfl, rfl, by norm_num, by norm_num, rfl, rfl, by norm_num,
    by norm_num⟩
